import Mathlib

/-!
Verification of the tweet-automation bot (twitter_bot5.py / twitter_bot2.py /
api/index.py): article batch selection without repeats, the Telegram session
state machine (tweet_command / handle_message), news fetching and filtering,
and the inactivity watchdog. Each Python function is shallowly embedded as a
Lean function; external HTTP adapters become explicit parameters, global
mutable state becomes an explicit Session record, and a raised Python
exception becomes the `Except.error` branch carrying the globals as mutated
so far.
-/

/-- A formatted news article, as built by `fetch_tech_news`
(dict with keys title / description / source / url). -/
structure NewsItem where
  title : String
  description : String
  source : String
  url : String
deriving Repr, DecidableEq

/-- A raw article from the NewsAPI JSON, after `article.get(key, "")`
defaulting: every field is a string, absent keys becoming `""`. -/
structure RawArticle where
  title : String
  description : String
  source : String
  url : String
deriving Repr, DecidableEq

/-- The admission test of `fetch_tech_news`:
`if title and (description or url)` with Python string truthiness
(a string is truthy iff non-empty). -/
def admissible (a : RawArticle) : Bool :=
  !a.title.isEmpty && (!a.description.isEmpty || !a.url.isEmpty)

/-- Building one formatted dict from a raw article. -/
def formatArticle (a : RawArticle) : NewsItem :=
  { title := a.title, description := a.description,
    source := a.source, url := a.url }

/-- The formatting loop of `fetch_tech_news`: keep exactly the raw articles
passing `admissible`, in order. -/
def formatArticles (raw : List RawArticle) : List NewsItem :=
  (raw.filter admissible).map formatArticle

/-- The part of an HTTP response that `fetch_tech_news` inspects:
`response.status_code` and `data.get("articles", [])`. -/
structure HttpResponse where
  status_code : Nat
  articles : List RawArticle
deriving Repr, DecidableEq

/-- Embedding of `fetch_tech_news`. The argument is the outcome of `requests.get`:
`Except.error` is a raised transport exception, which the Python code does
not catch, so it propagates (the function body is never entered past the
call). On status 200 with an empty raw list it returns `none`
(Python `None`); on status 200 with articles it returns the filtered batch;
on any other status it returns `none`. -/
def fetch_tech_news (resp : Except Unit HttpResponse) :
    Except Unit (Option (List NewsItem)) :=
  match resp with
  | .error e => .error e
  | .ok r =>
    if r.status_code = 200 then
      if r.articles.isEmpty then .ok none
      else .ok (some (formatArticles r.articles))
    else .ok none

/-- The comprehension `[i for i in range(len(articles)) if i not in used_indices]`. -/
def availableIndices (n : Nat) (used : List Nat) : List Nat :=
  (List.range n).filter (fun i => decide (i ∉ used))

/-- Embedding of `select_article(articles, used_indices)`. `random.choice` picks one
element of the non-empty `available_articles` list; the pick is made
explicit as the parameter `k`, the chosen position being `k` reduced
modulo the list length (any position is reachable by some `k`).
Returns `none` (Python `None`) when no index remains. -/
def select_article (articles : List NewsItem) (used : List Nat) (k : Nat) :
    Option Nat :=
  let available := availableIndices articles.length used
  if available.isEmpty then none
  else available[k % available.length]?

theorem availableIndices_mem (n : Nat) (used : List Nat) (i : Nat) :
    i ∈ availableIndices n used ↔ i < n ∧ i ∉ used := by
  simp [availableIndices, List.mem_filter, List.mem_range]

theorem select_article_eq_none (articles : List NewsItem) (used : List Nat)
    (k : Nat) :
    select_article articles used k = none ↔
      ∀ i < articles.length, i ∈ used := by
  unfold select_article
  by_cases h : (availableIndices articles.length used).isEmpty
  · simp only [h, if_true, true_iff]
    intro i hi
    by_contra hmem
    have : i ∈ availableIndices articles.length used :=
      (availableIndices_mem _ _ _).mpr ⟨hi, hmem⟩
    rw [List.isEmpty_iff] at h
    simp [h] at this
  · simp only [h, if_false]
    constructor
    · intro hc
      have hlen : 0 < (availableIndices articles.length used).length := by
        cases hl : availableIndices articles.length used with
        | nil => rw [List.isEmpty_iff] at h; exact absurd hl h
        | cons a l => simp [hl]
      have : k % (availableIndices articles.length used).length <
          (availableIndices articles.length used).length :=
        Nat.mod_lt _ hlen
      rw [List.getElem?_eq_getElem this] at hc
      exact absurd hc (by simp)
    · intro hall
      exfalso
      rw [List.isEmpty_iff] at h
      apply h
      rw [List.eq_nil_iff_forall_not_mem]
      intro i hi
      rw [availableIndices_mem] at hi
      exact hi.2 (hall i hi.1)

theorem select_article_eq_some (articles : List NewsItem) (used : List Nat)
    (k i : Nat) (h : select_article articles used k = some i) :
    i < articles.length ∧ i ∉ used := by
  unfold select_article at h
  by_cases he : (availableIndices articles.length used).isEmpty
  · simp [he] at h
  · simp only [he, if_false] at h
    obtain ⟨hlt, rfl⟩ := List.getElem?_eq_some.mp h
    have hmem : (availableIndices articles.length used)[k %
        (availableIndices articles.length used).length] ∈
        availableIndices articles.length used := List.getElem_mem hlt
    exact (availableIndices_mem _ _ _).mp hmem

/-- C1: `select_article` returns `None` exactly when every index of the batch
is already used; otherwise it returns an in-range unused index. -/
theorem select_article_policy (articles : List NewsItem) (used : List Nat)
    (k : Nat) :
    (select_article articles used k = none ↔
      ∀ i < articles.length, i ∈ used) ∧
    (∀ i, select_article articles used k = some i →
      i < articles.length ∧ i ∉ used) :=
  ⟨select_article_eq_none articles used k,
   fun i h => select_article_eq_some articles used k i h⟩

/-- A concrete three-article batch used to instantiate the theorems. -/
def demoBatch : List NewsItem :=
  [⟨"AI chips", "new fab", "WireA", "https://a.example"⟩,
   ⟨"Quantum leap", "qubits", "WireB", "https://b.example"⟩,
   ⟨"Robot swarm", "drones", "WireC", "https://c.example"⟩]

/-- Witness for C1 at a concrete batch: with index 1 used, the policy picks
index 0, which is in range and unused. -/
theorem select_article_policy_witness :
    select_article demoBatch [1] 0 = some 0 ∧
      0 < demoBatch.length ∧ 0 ∉ ([1] : List Nat) :=
  ⟨by decide, (select_article_policy demoBatch [1] 0).2 0 (by decide)⟩

/-- The caller loop of `tweet_command` / `main`: a sequence of calls to
`select_article`, the caller appending each returned index to `used_indices`
(`used_indices.append(selected_index)`) right after the call. Each entry of
`ks` is the random pick of one call; the run stops early if the policy ever
reports exhaustion. -/
def runSelection (articles : List NewsItem) (ks : List Nat)
    (used : List Nat) : List Nat :=
  match ks with
  | [] => used
  | k :: ks' =>
    match select_article articles used k with
    | some i => runSelection articles ks' (used ++ [i])
    | none => used

theorem select_article_isSome (articles : List NewsItem) (used : List Nat)
    (k : Nat) (h3 : used.length < articles.length) :
    ∃ i, select_article articles used k = some i := by
  cases hs : select_article articles used k with
  | some i => exact ⟨i, rfl⟩
  | none =>
    exfalso
    have hall := (select_article_eq_none _ _ _).mp hs
    have hsub : Finset.range articles.length ⊆ used.toFinset := by
      intro x hx
      rw [Finset.mem_range] at hx
      rw [List.mem_toFinset]
      exact hall x hx
    have hc := Finset.card_le_card hsub
    rw [Finset.card_range] at hc
    have h4 := used.toFinset_card_le
    omega

theorem runSelection_invariant (articles : List NewsItem) (ks : List Nat) :
    ∀ used : List Nat, used.Nodup → (∀ i ∈ used, i < articles.length) →
      used.length + ks.length ≤ articles.length →
      (runSelection articles ks used).Nodup ∧
      (∀ i ∈ runSelection articles ks used, i < articles.length) ∧
      (runSelection articles ks used).length = used.length + ks.length := by
  induction ks with
  | nil =>
    intro used h1 h2 _
    exact ⟨h1, h2, by simp [runSelection]⟩
  | cons k ks ih =>
    intro used h1 h2 h3
    have hlt : used.length < articles.length := by
      simp only [List.length_cons] at h3; omega
    obtain ⟨i, hi⟩ := select_article_isSome articles used k hlt
    have hprops := select_article_eq_some articles used k i hi
    have hnd : (used ++ [i]).Nodup := by
      rw [List.nodup_append]
      refine ⟨h1, List.nodup_singleton i, ?_⟩
      intro a ha hb
      rw [List.mem_singleton] at hb
      subst hb
      exact hprops.2 ha
    have hmem : ∀ j ∈ used ++ [i], j < articles.length := by
      intro j hj
      rw [List.mem_append, List.mem_singleton] at hj
      rcases hj with hj | rfl
      · exact h2 j hj
      · exact hprops.1
    have hlen : (used ++ [i]).length + ks.length ≤ articles.length := by
      simp only [List.length_append, List.length_singleton]
      simp only [List.length_cons] at h3; omega
    have hrun := ih (used ++ [i]) hnd hmem hlen
    have hstep : runSelection articles (k :: ks) used =
        runSelection articles ks (used ++ [i]) := by
      simp [runSelection, hi]
    rw [hstep]
    refine ⟨hrun.1, hrun.2.1, ?_⟩
    rw [hrun.2.2]
    simp only [List.length_append, List.length_singleton, List.length_cons,
      List.length_nil]
    omega

/-- C2: with the caller appending each returned index, `N` successive calls
on a batch of size `N` yield pairwise-distinct indices covering the whole
batch (the used list never holds a duplicate), and any further call reports
exhaustion (`None`). -/
theorem selection_without_replacement (articles : List NewsItem)
    (ks : List Nat) (h : ks.length = articles.length) :
    (runSelection articles ks []).Nodup ∧
    (runSelection articles ks []).length = articles.length ∧
    (∀ i, i ∈ runSelection articles ks [] ↔ i < articles.length) ∧
    (∀ k, select_article articles (runSelection articles ks []) k = none) := by
  have hinv := runSelection_invariant articles ks [] List.nodup_nil
    (by intro i hi; simp at hi) (by simp [h])
  obtain ⟨hnd, hmem, hlen⟩ := hinv
  simp only [List.length_nil, Nat.zero_add] at hlen
  rw [h] at hlen
  have hcov : ∀ i, i ∈ runSelection articles ks [] ↔ i < articles.length := by
    intro i
    constructor
    · exact hmem i
    · intro hi
      have hsub : (runSelection articles ks []).toFinset ⊆
          Finset.range articles.length := by
        intro x hx
        rw [List.mem_toFinset] at hx
        rw [Finset.mem_range]
        exact hmem x hx
      have hcard : (runSelection articles ks []).toFinset.card =
          articles.length := by
        rw [List.toFinset_card_of_nodup hnd, hlen]
      have heq : (runSelection articles ks []).toFinset =
          Finset.range articles.length :=
        Finset.eq_of_subset_of_card_le hsub (by rw [hcard, Finset.card_range])
      have : i ∈ (runSelection articles ks []).toFinset := by
        rw [heq, Finset.mem_range]; exact hi
      rwa [List.mem_toFinset] at this
  refine ⟨hnd, hlen, hcov, ?_⟩
  intro k
  rw [select_article_eq_none]
  intro i hi
  exact (hcov i).mpr hi

/-- Witness for C2: the demo batch of three articles, three picks; the used
list is duplicate-free, has length three, and a fourth call returns `None`. -/
theorem selection_without_replacement_witness :
    (runSelection demoBatch [0, 0, 0] []).Nodup ∧
    (runSelection demoBatch [0, 0, 0] []).length = demoBatch.length ∧
    select_article demoBatch (runSelection demoBatch [0, 0, 0] []) 0 = none := by
  have h := selection_without_replacement demoBatch [0, 0, 0] (by decide)
  exact ⟨h.1, h.2.1, h.2.2.2 0⟩

/-- Python truthiness of the `current_articles` global, which starts as `[]`
and becomes `None` after a failed fetch: `not current_articles` is true for
both `None` and the empty list. -/
def batchFalsy : Option (List NewsItem) → Bool
  | none => true
  | some l => l.isEmpty

/-- Python truthiness of the `current_tweet` global: `not current_tweet` is
true for `None` and for the empty string. -/
def strFalsy : Option String → Bool
  | none => true
  | some t => t.isEmpty

/-- The global mutable state of twitter_bot5.py relevant to one session:
`current_articles`, `used_indices`, `current_article`, `current_tweet` and
`last_activity_time` (a Unix time, `none` before initialisation). -/
structure Session where
  current_articles : Option (List NewsItem)
  used_indices : List Nat
  current_article : Option NewsItem
  current_tweet : Option String
  last_activity : Option Nat
deriving Repr, DecidableEq

/-- Embedding of `update_activity_timestamp()`: store the current time in
`last_activity_time`. -/
def update_activity_timestamp (now : Nat) (s : Session) : Session :=
  { s with last_activity := some now }

/-- The user-facing replies sent by `reply_text`, abstracted to tags (the
exact message strings carry no state). -/
inductive Reply where
  | searching
  | fetchFailed
  | allUsed
  | fetchFailedNew
  | articleInfo (i n : Nat)
  | generating
  | genFailed
  | preview (t : String)
  | posting
  | postOutcome (ok : Bool)
  | postedShutdown
  | lookingNew
  | cancelled
  | usageHint
  | noDraftPrompt
  | welcome
  | helpText
deriving Repr, DecidableEq

/-- Result of handling one inbound event: the session afterwards, the
replies sent, the index handed out by `select_article` (if any), and whether
`generate_tweet_text` was called, whether `post_tweet` was called, and
whether a shutdown timer (`threading.Timer(2.0, force_exit)`) was started. -/
structure StepOut where
  session : Session
  replies : List Reply
  selectedIdx : Option Nat
  genCalled : Bool
  published : Bool
  shutdown : Bool
deriving Repr, DecidableEq

/-- Outcomes of the external adapters during one event: the HTTP responses
of up to two `fetch_tech_news` calls, the draft generator's result, the
picks of `random.choice` for up to two `select_article` calls, and whether
`post_tweet` succeeds. -/
structure Env where
  fetch1 : Except Unit HttpResponse
  fetch2 : Except Unit HttpResponse
  gen : NewsItem → Option String
  k1 : Nat
  k2 : Nat
  postOk : Bool

/-- Lines 261-295 of twitter_bot5.py, from `used_indices.append` on:
record the index, set `current_article` (an out-of-range index would raise
IndexError, modeled as `Except.error`), call `generate_tweet_text` and store
its result in `current_tweet`; on a falsy result reply with the failure
message and return, otherwise send the preview and update the activity
timestamp again. -/
def draftPhase (env : Env) (now : Nat) (s : Session)
    (articles : List NewsItem) (i : Nat) (rs : List Reply) :
    Except (Session × List Reply) StepOut :=
  let s := { s with used_indices := s.used_indices ++ [i] }
  match articles[i]? with
  | none => .error (s, rs)
  | some art =>
    let s := { s with current_article := some art }
    let rs := rs ++ [Reply.articleInfo i articles.length, Reply.generating]
    let t := env.gen art
    let s := { s with current_tweet := t }
    if strFalsy t then
      .ok ⟨s, rs ++ [Reply.genFailed], some i, true, false, false⟩
    else
      .ok ⟨update_activity_timestamp now s,
        rs ++ [Reply.preview (t.getD "")], some i, true, false, false⟩

/-- Lines 240-243 of twitter_bot5.py: `if not current_articles:` fetch a
batch and reset `used_indices`. An `Except.error` is the transport
exception escaping `fetch_tech_news` before the assignment ran. -/
def refreshPhase (env : Env) (s : Session) : Except Unit Session :=
  if batchFalsy s.current_articles then
    match fetch_tech_news env.fetch1 with
    | .error e => .error e
    | .ok b => .ok { s with current_articles := b, used_indices := [] }
  else .ok s

/-- Lines 245-263 of twitter_bot5.py: report a falsy batch as a fetch
failure; otherwise select an article; on exhaustion re-fetch, reset
`used_indices`, and select again. The re-fetch has two exception sites: the
transport error inside `fetch_tech_news` (globals untouched), and the
`TypeError` of `select_article(None, used_indices)` when the re-fetch
returned `None` (line 255 computes `len(None)`) — there the batch and the
used set were already overwritten. -/
def selectPhase (env : Env) (now : Nat) (s : Session) (rs : List Reply) :
    Except (Session × List Reply) StepOut :=
  if batchFalsy s.current_articles then
    .ok ⟨s, rs ++ [Reply.fetchFailed], none, false, false, false⟩
  else
    let articles := s.current_articles.getD []
    match select_article articles s.used_indices env.k1 with
    | some i => draftPhase env now s articles i rs
    | none =>
      let rs := rs ++ [Reply.allUsed]
      match fetch_tech_news env.fetch2 with
      | .error _ => .error (s, rs)
      | .ok b =>
        let s' := { s with current_articles := b, used_indices := [] }
        match b with
        | none => .error (s', rs)
        | some l =>
          match select_article l [] env.k2 with
          | none =>
            .ok ⟨s', rs ++ [Reply.fetchFailedNew], none, false, false, false⟩
          | some i => draftPhase env now s' l i rs

/-- Embedding of `tweet_command` of twitter_bot5.py: update the activity timestamp,
announce the search, refresh the batch if needed, then select and draft. An
`Except.error` is an uncaught Python exception escaping the handler; it
carries the globals as mutated so far and the replies already sent. -/
def tweet_command (env : Env) (now : Nat) (s : Session) :
    Except (Session × List Reply) StepOut :=
  let s := update_activity_timestamp now s
  let rs := [Reply.searching]
  match refreshPhase env s with
  | .error _ => .error (s, rs)
  | .ok s' => selectPhase env now s' rs

/-- Python `str.lower()` restricted to its effect on the ASCII command
words the dispatcher compares against. -/
def lowerString (t : String) : String :=
  String.mk (t.data.map Char.toLower)

/-- Embedding of `handle_message` of twitter_bot5.py: update the activity timestamp; with
no current draft, prompt the user to start with /tweet and return; otherwise
dispatch on the lowercased text (`update.message.text.lower()`) to the
post / new / exit / usage-hint branches. -/
def handle_message (env : Env) (now : Nat) (text : String) (s : Session) :
    Except (Session × List Reply) StepOut :=
  let s := update_activity_timestamp now s
  if strFalsy s.current_tweet then
    .ok ⟨s, [Reply.noDraftPrompt], none, false, false, false⟩
  else
    let t := lowerString text
    if t = "post" then
      let rs := [Reply.posting, Reply.postOutcome env.postOk]
      if env.postOk then
        .ok ⟨{ s with current_tweet := none }, rs ++ [Reply.postedShutdown],
          none, false, true, true⟩
      else
        .ok ⟨s, rs, none, false, true, false⟩
    else if t = "new" then
      match tweet_command env now s with
      | .error (s', rs') => .error (s', Reply.lookingNew :: rs')
      | .ok out => .ok { out with replies := Reply.lookingNew :: out.replies }
    else if t = "exit" then
      .ok ⟨{ s with current_tweet := none }, [Reply.cancelled],
        none, false, false, true⟩
    else
      .ok ⟨s, [Reply.usageHint], none, false, false, false⟩

/-- The /start handler: update the activity timestamp, send the welcome
text. -/
def start_command (now : Nat) (s : Session) : Session × List Reply :=
  (update_activity_timestamp now s, [Reply.welcome])

/-- The /help handler: update the activity timestamp, send the command
list. -/
def help_command (now : Nat) (s : Session) : Session × List Reply :=
  (update_activity_timestamp now s, [Reply.helpText])

/-- The constant `TIMEOUT_SECONDS = 15 * 60`. -/
def TIMEOUT_SECONDS : Nat := 15 * 60

/-- The globals read by the watchdog: `start_time` and
`last_activity_time`. -/
structure WatchState where
  start_time : Nat
  last_activity : Option Nat
deriving Repr, DecidableEq

/-- One watchdog tick's outcome: whether `force_exit()` ran, the delay of
the rescheduled `threading.Timer` if any, and the globals afterwards. -/
structure WatchOut where
  fired : Bool
  reschedule : Option Nat
  state : WatchState
deriving Repr, DecidableEq

/-- The reference `last_activity_time if last_activity_time else start_time` — Python
falsiness of a timestamp: `None` or `0`. -/
def referenceTime (w : WatchState) : Nat :=
  match w.last_activity with
  | some t => if t = 0 then w.start_time else t
  | none => w.start_time

/-- Embedding of `check_inactivity_timeout()` of twitter_bot5.py: compute the elapsed
time since the reference time; at or past `TIMEOUT_SECONDS`, notify and
terminate (`fired`), otherwise schedule the next check in 30 seconds. The
globals are returned untouched: the function only reads them. -/
def check_inactivity_timeout (w : WatchState) (now : Nat) : WatchOut :=
  let elapsed := now - referenceTime w
  if TIMEOUT_SECONDS ≤ elapsed then
    { fired := true, reschedule := none, state := w }
  else
    { fired := false, reschedule := some 30, state := w }

deriving instance DecidableEq for Except

/-- The globals after an event handler finishes, whether it returned
normally or let an exception escape. -/
def sessionAfter : Except (Session × List Reply) StepOut → Session
  | .ok r => r.session
  | .error e => e.1

theorem draftPhase_last_activity (env : Env) (now : Nat) (s : Session)
    (articles : List NewsItem) (i : Nat) (rs : List Reply)
    (h : s.last_activity = some now) :
    (sessionAfter (draftPhase env now s articles i rs)).last_activity =
      some now := by
  unfold draftPhase
  cases hidx : articles[i]? with
  | none => simp [sessionAfter, h]
  | some art =>
    by_cases ht : strFalsy (env.gen art)
    · simp [hidx, ht, sessionAfter, h]
    · simp [hidx, ht, sessionAfter, update_activity_timestamp]

theorem refreshPhase_ok (env : Env) (s s' : Session)
    (h : refreshPhase env s = .ok s') :
    s'.last_activity = s.last_activity ∧
    s'.current_article = s.current_article ∧
    s'.current_tweet = s.current_tweet := by
  unfold refreshPhase at h
  by_cases hb : batchFalsy s.current_articles
  · rw [if_pos hb] at h
    cases hf : fetch_tech_news env.fetch1 with
    | error e => rw [hf] at h; cases h
    | ok b =>
      rw [hf] at h
      injection h with h
      rw [← h]
      exact ⟨rfl, rfl, rfl⟩
  · rw [if_neg hb] at h
    injection h with h
    rw [← h]
    exact ⟨rfl, rfl, rfl⟩

theorem selectPhase_last_activity (env : Env) (now : Nat) (s : Session)
    (rs : List Reply) (h : s.last_activity = some now) :
    (sessionAfter (selectPhase env now s rs)).last_activity = some now := by
  unfold selectPhase
  by_cases hb : batchFalsy s.current_articles
  · simp [hb, sessionAfter, h]
  · simp only [hb, Bool.false_eq_true, if_false]
    cases h1 : select_article (s.current_articles.getD [])
        s.used_indices env.k1 with
    | some i =>
      simp only [h1]
      exact draftPhase_last_activity env now s _ i rs h
    | none =>
      simp only [h1]
      cases h2 : fetch_tech_news env.fetch2 with
      | error e => simp [h2, sessionAfter, h]
      | ok b =>
        simp only [h2]
        cases b with
        | none => simp [sessionAfter, h]
        | some l =>
          cases h3 : select_article l [] env.k2 with
          | none => simp [h3, sessionAfter, h]
          | some i =>
            simp only [h3]
            refine draftPhase_last_activity env now _ l i _ ?_
            simp [h]

theorem tweet_command_last_activity (env : Env) (now : Nat) (s : Session) :
    (sessionAfter (tweet_command env now s)).last_activity = some now := by
  unfold tweet_command update_activity_timestamp
  cases hr : refreshPhase env { s with last_activity := some now } with
  | error e => simp [hr, sessionAfter]
  | ok s' =>
    simp only [hr]
    have hla : s'.last_activity = some now := by
      have := (refreshPhase_ok env _ s' hr).1
      simpa using this
    exact selectPhase_last_activity env now s' _ hla

theorem handle_message_no_draft_eq (env : Env) (now : Nat) (text : String)
    (s : Session) (hd : strFalsy s.current_tweet = true) :
    handle_message env now text s =
      .ok ⟨{ s with last_activity := some now }, [Reply.noDraftPrompt],
        none, false, false, false⟩ := by
  unfold handle_message update_activity_timestamp
  simp [hd]

theorem handle_message_post_eq (env : Env) (now : Nat) (text : String)
    (s : Session) (hd : strFalsy s.current_tweet = false)
    (htl : lowerString text = "post") :
    handle_message env now text s =
      (if env.postOk then
        .ok ⟨{ s with last_activity := some now, current_tweet := none },
          [Reply.posting, Reply.postOutcome true, Reply.postedShutdown],
          none, false, true, true⟩
      else
        .ok ⟨{ s with last_activity := some now },
          [Reply.posting, Reply.postOutcome false],
          none, false, true, false⟩) := by
  unfold handle_message update_activity_timestamp
  by_cases hk : env.postOk <;> simp [hd, htl, hk]

theorem handle_message_new_eq (env : Env) (now : Nat) (text : String)
    (s : Session) (hd : strFalsy s.current_tweet = false)
    (htl : lowerString text = "new") :
    handle_message env now text s =
      (match tweet_command env now { s with last_activity := some now } with
      | .error (s', rs') => .error (s', Reply.lookingNew :: rs')
      | .ok out =>
        .ok { out with replies := Reply.lookingNew :: out.replies }) := by
  unfold handle_message tweet_command update_activity_timestamp
  simp [hd, htl]

theorem handle_message_exit_eq (env : Env) (now : Nat) (text : String)
    (s : Session) (hd : strFalsy s.current_tweet = false)
    (htl : lowerString text = "exit") :
    handle_message env now text s =
      .ok ⟨{ s with last_activity := some now, current_tweet := none },
        [Reply.cancelled], none, false, false, true⟩ := by
  unfold handle_message update_activity_timestamp
  simp [hd, htl]

theorem handle_message_other_eq (env : Env) (now : Nat) (text : String)
    (s : Session) (hd : strFalsy s.current_tweet = false)
    (h1 : lowerString text ≠ "post") (h2 : lowerString text ≠ "new")
    (h3 : lowerString text ≠ "exit") :
    handle_message env now text s =
      .ok ⟨{ s with last_activity := some now },
        [Reply.usageHint], none, false, false, false⟩ := by
  unfold handle_message update_activity_timestamp
  simp [hd, h1, h2, h3]

theorem handle_message_last_activity (env : Env) (now : Nat) (text : String)
    (s : Session) :
    (sessionAfter (handle_message env now text s)).last_activity =
      some now := by
  by_cases hd : strFalsy s.current_tweet
  · rw [handle_message_no_draft_eq env now text s hd]
    simp [sessionAfter]
  · rw [Bool.not_eq_true] at hd
    by_cases hp : lowerString text = "post"
    · rw [handle_message_post_eq env now text s hd hp]
      by_cases hk : env.postOk <;> simp [hk, sessionAfter]
    · by_cases hn : lowerString text = "new"
      · rw [handle_message_new_eq env now text s hd hn]
        have := tweet_command_last_activity env now
          { s with last_activity := some now }
        cases htc : tweet_command env now
            { s with last_activity := some now } with
        | error e =>
          rw [htc] at this
          cases e with
          | mk a b => simpa [sessionAfter] using this
        | ok out =>
          rw [htc] at this
          simpa [sessionAfter] using this
      · by_cases hx : lowerString text = "exit"
        · rw [handle_message_exit_eq env now text s hd hx]
          simp [sessionAfter]
        · rw [handle_message_other_eq env now text s hd hp hn hx]
          simp [sessionAfter]

/-- C6: every inbound user event — /start, /help, /tweet and every text
message — stores the current time into `last_activity_time` as part of its
handling, including runs whose business logic later fails or raises. -/
theorem every_event_updates_activity (env : Env) (now : Nat) (s : Session)
    (text : String) :
    (start_command now s).1.last_activity = some now ∧
    (help_command now s).1.last_activity = some now ∧
    (sessionAfter (tweet_command env now s)).last_activity = some now ∧
    (sessionAfter (handle_message env now text s)).last_activity = some now :=
  ⟨rfl, rfl, tweet_command_last_activity env now s,
   handle_message_last_activity env now text s⟩

/-- C10: a text message arriving while no current draft exists is answered
with the prompt to use /tweet first; the publisher and the generator are not
invoked, no shutdown is scheduled, and the session is unchanged apart from
`last_activity` — in particular nothing can be published while no draft is
held. -/
theorem message_without_draft_is_safe (env : Env) (now : Nat) (text : String)
    (s : Session) (hd : strFalsy s.current_tweet = true) :
    handle_message env now text s =
      .ok ⟨{ s with last_activity := some now }, [Reply.noDraftPrompt],
        none, false, false, false⟩ :=
  handle_message_no_draft_eq env now text s hd

/-- An adapter environment where every adapter fails or stays unused. -/
def idleEnv : Env :=
  { fetch1 := .ok ⟨200, []⟩, fetch2 := .ok ⟨200, []⟩,
    gen := fun _ => none, k1 := 0, k2 := 0, postOk := false }

/-- A session holding a fetched batch but no draft yet. -/
def freshSession : Session :=
  { current_articles := some demoBatch, used_indices := [],
    current_article := none, current_tweet := none, last_activity := none }

/-- Witness for C10: a "post" message with no draft held is answered with
the prompt and leaves everything but `last_activity` unchanged. -/
theorem message_without_draft_is_safe_witness :
    handle_message idleEnv 42 "post" freshSession =
      .ok ⟨{ freshSession with last_activity := some 42 },
        [Reply.noDraftPrompt], none, false, false, false⟩ :=
  message_without_draft_is_safe idleEnv 42 "post" freshSession (by decide)

/-- C7: a successful `post` clears the current draft and schedules the
shutdown timer; any later message finds no draft and is answered with the
start-over prompt — the publisher is not called again and only
`last_activity` changes. -/
theorem post_success_is_terminal (env env2 : Env) (now now2 : Nat)
    (text text2 : String) (s : Session) (r r2 : StepOut)
    (hd : strFalsy s.current_tweet = false) (hp : env.postOk = true)
    (htl : lowerString text = "post")
    (h1 : handle_message env now text s = .ok r)
    (h2 : handle_message env2 now2 text2 r.session = .ok r2) :
    r.session.current_tweet = none ∧ r.shutdown = true ∧ r.published = true ∧
    r2.published = false ∧ r2.replies = [Reply.noDraftPrompt] ∧
    r2.session = { r.session with last_activity := some now2 } := by
  rw [handle_message_post_eq env now text s hd htl, hp] at h1
  simp only [if_true] at h1
  injection h1 with h1
  subst h1
  rw [handle_message_no_draft_eq env2 now2 text2
    { s with last_activity := some now, current_tweet := none } rfl] at h2
  injection h2 with h2
  subst h2
  exact ⟨rfl, rfl, rfl, rfl, rfl, rfl⟩

/-- An adapter environment whose publisher succeeds. -/
def postEnv : Env :=
  { fetch1 := .ok ⟨200, []⟩, fetch2 := .ok ⟨200, []⟩,
    gen := fun _ => none, k1 := 0, k2 := 0, postOk := true }

/-- A session in the awaiting-approval stage: a draft is held. -/
def draftSession : Session :=
  { current_articles := some demoBatch, used_indices := [0],
    current_article := none, current_tweet := some "drafted tweet",
    last_activity := some 10 }

/-- The step output of a successful post on `draftSession` at time 11. -/
def postedOut : StepOut :=
  ⟨{ draftSession with last_activity := some 11, current_tweet := none },
   [Reply.posting, Reply.postOutcome true, Reply.postedShutdown],
   none, false, true, true⟩

/-- The step output of the follow-up message at time 12. -/
def promptedOut : StepOut :=
  ⟨{ draftSession with last_activity := some 12, current_tweet := none },
   [Reply.noDraftPrompt], none, false, false, false⟩

/-- Witness for C7 at a concrete run: "POST" succeeds at time 11, and the
follow-up message at time 12 only gets the start-over prompt. -/
theorem post_success_is_terminal_witness :
    postedOut.session.current_tweet = none ∧ postedOut.shutdown = true ∧
    postedOut.published = true ∧ promptedOut.published = false ∧
    promptedOut.replies = [Reply.noDraftPrompt] ∧
    promptedOut.session =
      { postedOut.session with last_activity := some 12 } :=
  post_success_is_terminal postEnv idleEnv 11 12 "POST" "retry post"
    draftSession postedOut promptedOut (by decide) rfl (by decide)
    (by decide) (by decide)

/-- C4 (amended): a publish failure leaves the session exactly as it was
apart from `last_activity` — the draft is kept for another try. (The other
failing adapters do mutate the session: a failing draft generation consumes
the selected index, overwrites `current_article` and clears
`current_tweet`, and a failing re-fetch of an exhausted batch resets the
batch and the used set.) -/
theorem publish_failure_preserves_session (env : Env) (now : Nat)
    (text : String) (s : Session) (hd : strFalsy s.current_tweet = false)
    (hp : env.postOk = false) (htl : lowerString text = "post") :
    handle_message env now text s =
      .ok ⟨{ s with last_activity := some now },
        [Reply.posting, Reply.postOutcome false],
        none, false, true, false⟩ := by
  rw [handle_message_post_eq env now text s hd htl, hp]
  simp

/-- Witness for the amended C4: a failing publish at time 13 keeps the
draft and the rest of the session. -/
theorem publish_failure_preserves_session_witness :
    handle_message idleEnv 13 "post" draftSession =
      .ok ⟨{ draftSession with last_activity := some 13 },
        [Reply.posting, Reply.postOutcome false],
        none, false, true, false⟩ :=
  publish_failure_preserves_session idleEnv 13 "post" draftSession
    (by decide) rfl (by decide)

/-- A one-article batch. -/
def soloBatch : List NewsItem := [⟨"Solo", "d", "S", "u"⟩]

/-- An adapter environment whose draft generator always fails. -/
def genFailEnv : Env :=
  { fetch1 := .ok ⟨200, []⟩, fetch2 := .ok ⟨200, []⟩,
    gen := fun _ => none, k1 := 0, k2 := 0, postOk := false }

/-- A fresh session over the one-article batch. -/
def soloSession : Session :=
  { current_articles := some soloBatch, used_indices := [],
    current_article := none, current_tweet := none, last_activity := none }

/-- C4 counterexample: `generate_tweet_text` fails inside `tweet_command`,
yet the session afterwards differs from the pre-call session beyond
`last_activity`: the selected index was appended to `used_indices` and
`current_article` was overwritten. -/
theorem adapter_failure_frame_cex :
    (tweet_command genFailEnv 7 soloSession).toOption.map
        (fun r => (r.genCalled, r.session.current_tweet,
          decide (r.session =
            { soloSession with last_activity := r.session.last_activity }))) =
      some (true, none, false) := by decide

/-- The step output of `tweet_command` on `soloSession` at time 5 when the
generator fails. -/
def genFailOut : StepOut :=
  ⟨{ current_articles := some soloBatch, used_indices := [0],
     current_article := some ⟨"Solo", "d", "S", "u"⟩,
     current_tweet := none, last_activity := some 5 },
   [Reply.searching, Reply.articleInfo 0 1, Reply.generating,
    Reply.genFailed], some 0, true, false, false⟩

/-- C3 counterexample: with a failing generator, `tweet_command` has already
appended the selected index 0 to `used_indices` when the generator is
called; the draft fails (`current_tweet` ends `None`), yet index 0 stays
recorded as used, so the article is consumed for the current batch. -/
theorem index_recorded_before_draft_cex :
    tweet_command genFailEnv 5 soloSession = .ok genFailOut ∧
    genFailOut.genCalled = true ∧
    genFailOut.session.current_tweet = none ∧
    genFailOut.session.used_indices = [0] := by decide

theorem draftPhase_selected_recorded (env : Env) (now : Nat) (s : Session)
    (articles : List NewsItem) (i : Nat) (rs : List Reply) (r : StepOut)
    (h : draftPhase env now s articles i rs = .ok r) (j : Nat)
    (hj : r.selectedIdx = some j) : j ∈ r.session.used_indices := by
  unfold draftPhase at h
  cases hidx : articles[i]? with
  | none => simp only [hidx] at h; cases h
  | some art =>
    simp only [hidx] at h
    by_cases ht : strFalsy (env.gen art)
    · simp only [ht, if_true] at h
      injection h with h
      subst h
      simp only [Option.some.injEq] at hj
      subst hj
      simp
    · simp only [ht, Bool.false_eq_true, if_false] at h
      injection h with h
      subst h
      simp only [Option.some.injEq] at hj
      subst hj
      simp [update_activity_timestamp]

theorem selectPhase_selected_recorded (env : Env) (now : Nat) (s : Session)
    (rs : List Reply) (r : StepOut)
    (h : selectPhase env now s rs = .ok r) (j : Nat)
    (hj : r.selectedIdx = some j) : j ∈ r.session.used_indices := by
  unfold selectPhase at h
  by_cases hb : batchFalsy s.current_articles
  · simp only [hb, if_true] at h
    injection h with h
    subst h
    simp at hj
  · simp only [hb, Bool.false_eq_true, if_false] at h
    cases h1 : select_article (s.current_articles.getD [])
        s.used_indices env.k1 with
    | some i =>
      simp only [h1] at h
      exact draftPhase_selected_recorded env now s _ i rs r h j hj
    | none =>
      simp only [h1] at h
      cases h2 : fetch_tech_news env.fetch2 with
      | error e => simp only [h2] at h; cases h
      | ok b =>
        simp only [h2] at h
        cases b with
        | none => cases h
        | some l =>
          cases h3 : select_article l [] env.k2 with
          | none =>
            simp only [h3] at h
            injection h with h
            subst h
            simp at hj
          | some i =>
            simp only [h3] at h
            exact draftPhase_selected_recorded env now _ l i _ r h j hj

/-- C3 (amended): in the interactive flow the selected index is appended to
`used_indices` before the draft generator runs, so any run of
`tweet_command` that handed out an index has recorded it — whether the
draft succeeded or failed; a failed draft therefore does consume the
article for the current batch (until the batch itself is replaced). -/
theorem selected_index_always_recorded (env : Env) (now : Nat) (s : Session)
    (r : StepOut) (i : Nat) (h : tweet_command env now s = .ok r)
    (hi : r.selectedIdx = some i) : i ∈ r.session.used_indices := by
  unfold tweet_command update_activity_timestamp at h
  cases hr : refreshPhase env { s with last_activity := some now } with
  | error e => simp only [hr] at h; cases h
  | ok s' =>
    simp only [hr] at h
    exact selectPhase_selected_recorded env now s' _ r h i hi

/-- Witness for the amended C3: the failed-generation run on `soloSession`
hands out index 0 and has recorded it in `used_indices`. -/
theorem selected_index_always_recorded_witness :
    (0 : Nat) ∈ genFailOut.session.used_indices :=
  selected_index_always_recorded genFailEnv 5 soloSession genFailOut 0
    (by decide) rfl

/-- C5: a watchdog tick terminates the process exactly when
`now - last_activity_time` has reached `TIMEOUT_SECONDS` (15 minutes);
below the threshold it only schedules the next check 30 seconds later, and
in either case it leaves `last_activity_time` and `start_time` untouched. -/
theorem watchdog_tick_spec (w : WatchState) (now t : Nat)
    (hl : w.last_activity = some t) (h0 : t ≠ 0) :
    ((check_inactivity_timeout w now).fired = true ↔
      TIMEOUT_SECONDS ≤ now - t) ∧
    (check_inactivity_timeout w now).state = w ∧
    ((check_inactivity_timeout w now).fired = false →
      (check_inactivity_timeout w now).reschedule = some 30) := by
  by_cases hc : TIMEOUT_SECONDS ≤ now - t <;>
    simp [check_inactivity_timeout, referenceTime, hl, h0, hc]

/-- Witness for C5: last activity at second 100, the tick at second 1000
fires (900 seconds elapsed) and leaves the globals untouched. -/
theorem watchdog_tick_spec_witness :
    ((check_inactivity_timeout ⟨0, some 100⟩ 1000).fired = true ↔
      TIMEOUT_SECONDS ≤ 1000 - 100) ∧
    (check_inactivity_timeout ⟨0, some 100⟩ 1000).state = ⟨0, some 100⟩ ∧
    ((check_inactivity_timeout ⟨0, some 100⟩ 1000).fired = false →
      (check_inactivity_timeout ⟨0, some 100⟩ 1000).reschedule = some 30) :=
  watchdog_tick_spec ⟨0, some 100⟩ 1000 100 rfl (by decide)

theorem admissible_fields (a : RawArticle) (h : admissible a = true) :
    a.title ≠ "" ∧ (a.description ≠ "" ∨ a.url ≠ "") := by
  unfold admissible at h
  rw [Bool.and_eq_true, Bool.or_eq_true] at h
  refine ⟨?_, ?_⟩
  · intro heq
    have h1 := h.1
    rw [heq] at h1
    exact absurd h1 (by decide)
  · rcases h.2 with h1 | h1
    · left
      intro heq
      rw [heq] at h1
      exact absurd h1 (by decide)
    · right
      intro heq
      rw [heq] at h1
      exact absurd h1 (by decide)

/-- C8: every item admitted into a working batch by `fetch_tech_news` has a
non-empty title and a non-empty description or a non-empty url; raw
articles failing that test are excluded from the returned batch. -/
theorem fetched_items_admissible (resp : Except Unit HttpResponse)
    (items : List NewsItem) (h : fetch_tech_news resp = .ok (some items)) :
    ∀ x ∈ items, x.title ≠ "" ∧ (x.description ≠ "" ∨ x.url ≠ "") := by
  intro x hx
  cases resp with
  | error e => simp [fetch_tech_news] at h
  | ok r =>
    replace h : (if r.status_code = 200 then
        if r.articles.isEmpty then Except.ok none
        else Except.ok (some (formatArticles r.articles))
      else Except.ok none) = Except.ok (some items) := h
    by_cases hs : r.status_code = 200
    · rw [if_pos hs] at h
      by_cases he : r.articles.isEmpty
      · rw [if_pos he] at h
        simp at h
      · rw [if_neg he] at h
        simp only [Except.ok.injEq, Option.some.injEq] at h
        subst h
        unfold formatArticles at hx
        rw [List.mem_map] at hx
        obtain ⟨a, ha, rfl⟩ := hx
        rw [List.mem_filter] at ha
        have hf := admissible_fields a ha.2
        simpa [formatArticle] using hf
    · rw [if_neg hs] at h
      simp at h

/-- A raw article passing the admission test (title and url non-empty). -/
def goodRaw : RawArticle := ⟨"GoodTitle", "", "Src", "https://good"⟩

/-- A raw article failing the admission test (empty title). -/
def badRaw : RawArticle := ⟨"", "desc", "Src", "https://bad"⟩

/-- Witness for C8: a 200 response carrying one passing and one failing raw
article yields a batch holding exactly the passing one, and that item
satisfies the admission predicate. -/
theorem fetched_items_admissible_witness :
    fetch_tech_news (.ok ⟨200, [goodRaw, badRaw]⟩) =
      .ok (some [formatArticle goodRaw]) ∧
    (formatArticle goodRaw).title ≠ "" ∧
    ((formatArticle goodRaw).description ≠ "" ∨
      (formatArticle goodRaw).url ≠ "") :=
  ⟨by decide,
   fetched_items_admissible (.ok ⟨200, [goodRaw, badRaw]⟩)
     [formatArticle goodRaw] (by decide) (formatArticle goodRaw) (by decide)⟩

/-- C9 counterexample: a transport error raised by `requests.get` does not
make `fetch_tech_news` return `None` — the exception propagates uncaught,
so the caller never reaches its `if not current_articles` check in that
case. -/
theorem transport_error_not_none_cex :
    fetch_tech_news (.error ()) = .error () ∧
    fetch_tech_news (.error ()) ≠ .ok none := by decide

/-- C9 (amended): `fetch_tech_news` returns `None` exactly when the HTTP
request completes with a non-200 status, or completes with status 200 and
an empty raw article list; a transport exception instead propagates to the
caller. Both `None` outcomes reach the same caller check
(`if not current_articles`), which reports the fetch failure and returns. -/
theorem fetch_failure_signalling (r : HttpResponse) (env : Env) (now : Nat)
    (s : Session) (hb : batchFalsy s.current_articles = true)
    (hf : fetch_tech_news env.fetch1 = .ok none) :
    (fetch_tech_news (.ok r) = .ok none ↔
      (r.status_code ≠ 200 ∨ r.articles = [])) ∧
    tweet_command env now s =
      .ok ⟨{ s with current_articles := none, used_indices := [],
                    last_activity := some now },
           [Reply.searching, Reply.fetchFailed], none, false, false, false⟩ := by
  constructor
  · have hred : fetch_tech_news (.ok r) =
        (if r.status_code = 200 then
          if r.articles.isEmpty then Except.ok none
          else Except.ok (some (formatArticles r.articles))
        else Except.ok none) := rfl
    rw [hred]
    by_cases hs : r.status_code = 200
    · rw [if_pos hs]
      by_cases he : r.articles.isEmpty
      · rw [if_pos he]
        simp [hs, List.isEmpty_iff.mp he]
      · rw [if_neg he]
        rw [List.isEmpty_iff] at he
        simp [hs, he]
    · rw [if_neg hs]
      simp [hs]
  · unfold tweet_command refreshPhase selectPhase update_activity_timestamp
    simp [hb, hf, show batchFalsy none = true from rfl]

/-- An adapter environment whose news source answers with status 500. -/
def failFetchEnv : Env :=
  { fetch1 := .ok ⟨500, []⟩, fetch2 := .ok ⟨500, []⟩,
    gen := fun _ => none, k1 := 0, k2 := 0, postOk := false }

/-- A session with an empty (falsy) batch. -/
def emptySession : Session :=
  { current_articles := some [], used_indices := [],
    current_article := none, current_tweet := none, last_activity := none }

/-- Witness for the amended C9: a 500 response makes `fetch_tech_news`
return `None`, and `tweet_command` on an empty batch reports the fetch
failure and stops. -/
theorem fetch_failure_signalling_witness :
    (fetch_tech_news (.ok ⟨500, []⟩) = .ok none ↔
      ((500 : Nat) ≠ 200 ∨ ([] : List RawArticle) = [])) ∧
    tweet_command failFetchEnv 21 emptySession =
      .ok ⟨{ emptySession with current_articles := none, used_indices := [],
                               last_activity := some 21 },
           [Reply.searching, Reply.fetchFailed], none, false, false, false⟩ :=
  fetch_failure_signalling ⟨500, []⟩ failFetchEnv 21 emptySession
    (by decide) (by decide)
